import Mathlib

/-!
Verification of the `PhystechCampus` dataset adapter
(`src/opr/datasets/custom.py`).

The development shallowly embeds the three pieces of that file:
the point-cloud loader `_load_pc`, the constructor `__init__`, and the
sample assembler `__getitem__`.  32-bit floating point values read from
disk are modelled as rationals (`ℚ`): the claims under study are about
membership in the closed interval `[-100, 100]`, about which values are
copied where, and about which dictionary keys appear — none of them
depends on rounding, so the rational stands for "the float32 value the
program holds".  External collaborators (the filesystem, the OpenCV
codec calls, and the transform pipeline) are passed in as an explicit
environment of functions; the object state is threaded explicitly, so a
method's write to an attribute shows up as a difference between the
state it received and the state it returns.
-/

namespace PhystechCampus

/-- A 3-D point, the row type of the cloud produced by `_load_pc`
(after the 4th column is discarded). -/
structure Point3 where
  x : ℚ
  y : ℚ
  z : ℚ
deriving DecidableEq, Repr

/-- Grouping step of `np.fromfile(filepath, dtype=np.float32).reshape((-1, 4))`:
collect the flat float sequence into records of 4.  `reshape` raises a
`ValueError` when the number of floats is not a multiple of 4; that
failure is `none`. -/
def chunk4 : List ℚ → Option (List (ℚ × ℚ × ℚ × ℚ))
  | [] => some []
  | a :: b :: c :: d :: rest => (chunk4 rest).map (fun rs => (a, b, c, d) :: rs)
  | _ => none

/-- One per-axis test of `np.logical_and(-100 <= pc, pc <= 100)`. -/
def inRange100 (v : ℚ) : Bool := decide (-100 ≤ v) && decide (v ≤ 100)

/-- The per-row mask `np.all(..., axis=1)` over the three retained
coordinates: conjunction of the three per-axis tests. -/
def keepPoint (p : Point3) : Bool := inRange100 p.x && inRange100 p.y && inRange100 p.z

/-- Column slice `pc[:, :-1]`: project a 4-float record to its first
three values. -/
def proj3 (r : ℚ × ℚ × ℚ × ℚ) : Point3 := ⟨r.1, r.2.1, r.2.2.1⟩

/-- Loader `PhystechCampus._load_pc`, on the flat float32 contents of
the file: reshape into 4-value records, drop the 4th column, keep the
rows whose three coordinates all lie in `[-100, 100]`. -/
def load_pc (floats : List ℚ) : Option (List Point3) :=
  (chunk4 floats).map (fun rows => (rows.map proj3).filter keepPoint)

/-- Modelled from the spec: the Row Index contract (§6) — one
observation row, with named columns `track`, `northing`, `easting`, and
"one timestamp column per enabled modality/sub-channel".  Timestamp
columns are a total lookup from column name to the timestamp string used
in file names; `northing`/`easting` hold the float32 values the table
yields after the cast. -/
structure Row where
  track : String
  northing : ℚ
  easting : ℚ
  tsOf : String → String

/-- Modelled from the spec: the Row Index table (`self.dataset_df`,
built by the external `BaseDataset`).  `rows` is the ordered row list;
`in_query` models the presence/value of the extra boolean `in_query`
column (`none` when the column is absent). -/
structure Table where
  rows : List Row
  in_query : Option Bool

/-- Abstract handle for a decoded image/tensor produced by the codec and
transform collaborators. -/
structure Img where
  id : Nat
deriving DecidableEq, Repr

/-- A value stored in the sample mapping returned by `__getitem__`. -/
inductive Value where
  | vint (i : Int)
  | vvec (v : List ℚ)
  | vcloud (pts : List Point3)
  | vimg (t : Img)
deriving DecidableEq

/-- The sample: a mapping from field name to value, in insertion order
(a Python `dict`). -/
abbrev Sample := List (String × Value)

/-- Exceptions surfaced by construction or by `__getitem__` (spec §7). -/
inductive Err where
  | configError
  | indexError
  | resourceError
  | formatError
deriving DecidableEq, Repr

/-- The external collaborators used by `__getitem__`: the filesystem
(`np.fromfile` on `.bin` files, `cv2.imread` in color and grayscale
mode) and the codec/transform functions.  `none` from a read means the
file is missing or undecodable. -/
structure Env where
  fs_bin : List String → Option (List ℚ)
  imread : List String → Option Img
  imreadGray : List String → Option Img
  cvtColor : Img → Img
  resize : Img → Nat → Nat → Img
  image_transform : Img → Img
  semantic_transform : Img → Img
  toFloat : Img → Img

/-- The dataset object's state after `__init__`.  Modelled from the
spec where `BaseDataset` (not in the excerpt) is concerned: subdirectory
attributes that are never assigned read as `none`, matching §3's
"present iff the corresponding modality is enabled AND its subdirectory
is configured". -/
structure Dataset where
  dataset_root : List String
  subset : String
  modalities : List String
  images_subdir : Option String
  semantic_front_subdir : Option String
  semantic_back_subdir : Option String
  clouds_subdir : Option String
  mink_quantization_size : Option ℚ
  dataset_df : Table

/-- Python truthiness of an optional subdirectory argument: `None` and
the empty string are falsy. -/
def truthy : Option String → Bool
  | none => false
  | some s => !s.isEmpty

def valid_subsets : List String := ["train", "val", "test"]

def valid_modalities : List String := ["image", "cloud", "semantic"]

/-- The constructor arguments, with the source's defaults. -/
structure InitArgs where
  dataset_root : List String
  subset : String := "test"
  modalities : List String := ["image", "cloud"]
  images_subdir : Option String := some "front_cam"
  semantic_front_subdir : Option String := some "labels/front_cam"
  semantic_back_subdir : Option String := some "labels/back_cam"
  mink_quantization_size : Option ℚ := some (1 / 2)

/-- Modelled from the spec: the state `super().__init__` leaves behind —
root/subset/modalities stored, the Row Index installed, every optional
subdirectory attribute unset (`none`). -/
@[simps]
def baseInit (args : InitArgs) (df : Table) : Dataset :=
  { dataset_root := args.dataset_root, subset := args.subset,
    modalities := args.modalities, images_subdir := none,
    semantic_front_subdir := none, semantic_back_subdir := none,
    clouds_subdir := none, mink_quantization_size := none, dataset_df := df }

/-- Attribute assignment `self.clouds_subdir = v`. -/
@[simps]
def withCloudsSubdir (self : Dataset) (v : Option String) : Dataset :=
  { self with clouds_subdir := v }

/-- Attribute assignment `self.images_subdir = v`. -/
@[simps]
def withImagesSubdir (self : Dataset) (v : Option String) : Dataset :=
  { self with images_subdir := v }

/-- Attribute assignment `self.semantic_front_subdir = v`. -/
@[simps]
def withSemanticFront (self : Dataset) (v : Option String) : Dataset :=
  { self with semantic_front_subdir := v }

/-- Attribute assignment `self.semantic_back_subdir = v`. -/
@[simps]
def withSemanticBack (self : Dataset) (v : Option String) : Dataset :=
  { self with semantic_back_subdir := v }

/-- Attribute assignment `self.mink_quantization_size = v`. -/
@[simps]
def withMink (self : Dataset) (v : Option ℚ) : Dataset :=
  { self with mink_quantization_size := v }

/-- Column write `self.dataset_df["in_query"] = True`: set the
`in_query` column of the Row Index table. -/
@[simps]
def withInQuery (self : Dataset) : Dataset :=
  { self with dataset_df := { self.dataset_df with in_query := some true } }

/-- Constructor `PhystechCampus.__init__`.  The base call
(`super().__init__`) is modelled from the spec: it stores
root/subset/modalities, validates them against the fixed allowed sets
(unknown values rejected with a configuration error), and installs the
Row Index `df`.  The rest mirrors the source line by line: the dead
`clouds_subdir = Path("pcd")` assignment, the `ValueError` when the
image modality lacks a subdirectory, the conditional semantic
subdirectory assignments, the unconditional
`clouds_subdir = Path("lidar")` overwrite, and the
`dataset_df["in_query"] = True` workaround when the subset is `test`. -/
def init (args : InitArgs) (df : Table) : Except Err Dataset :=
  if args.subset ∈ valid_subsets ∧ args.modalities.all (· ∈ valid_modalities) then
    let self0 := baseInit args df
    let self1 := if "cloud" ∈ self0.modalities then withCloudsSubdir self0 (some "pcd") else self0
    if "image" ∈ self1.modalities ∧ truthy args.images_subdir = false then .error .configError
    else
      let self2 := if "image" ∈ self1.modalities then withImagesSubdir self1 args.images_subdir else self1
      let self3 :=
        if "semantic" ∈ self2.modalities ∧ truthy args.semantic_front_subdir = true then
          withSemanticFront self2 args.semantic_front_subdir else self2
      let self4 :=
        if "semantic" ∈ self3.modalities ∧ truthy args.semantic_back_subdir = true then
          withSemanticBack self3 args.semantic_back_subdir else self3
      let self5 := withCloudsSubdir self4 (some "lidar")
      let self6 := withMink self5 args.mink_quantization_size
      let self7 := if self6.subset = "test" then withInQuery self6 else self6
      .ok self7
  else .error .configError

/-- Pandas `DataFrame.iloc[i]` with a scalar integer: positions count
from the front for `0 ≤ i < len`, from the back for `-len ≤ i < 0`
(`i` resolves to `len + i`), and anything else raises `IndexError`
(`none`). -/
def iloc (rows : List Row) (i : Int) : Option Row :=
  if 0 ≤ i then
    if h : i.toNat < rows.length then some (rows.get ⟨i.toNat, h⟩) else none
  else
    if h : ((rows.length : Int) + i).toNat < rows.length then
      if 0 ≤ (rows.length : Int) + i then
        some (rows.get ⟨((rows.length : Int) + i).toNat, h⟩)
      else none
    else none

/-- Path composition `trackDir / subdir / file` (spec §4.1). -/
def assetPath (root : List String) (track subdir file : String) : List String :=
  root ++ [track, subdir, file]

/-- The point-cloud asset path computed in `__getitem__`:
`track_dir / self.clouds_subdir / f"{row['lidar_ts']}.bin"` (guarded by
`self.clouds_subdir is not None`). -/
def cloudPath (self : Dataset) (row : Row) : Option (List String) :=
  self.clouds_subdir.map
    (fun sub => assetPath self.dataset_root row.track sub (row.tsOf "lidar_ts" ++ ".bin"))

/-- Read and decode one point-cloud file: a missing file makes
`np.fromfile` raise, a float count that is not a multiple of 4 makes the
reshape raise; otherwise the filtered cloud is stored under `"cloud"`. -/
def cloudRead (env : Env) (path : List String) (data : Sample) : Except Err Sample :=
  match env.fs_bin path with
  | none => .error .resourceError
  | some floats =>
      match load_pc floats with
      | none => .error .formatError
      | some pts => .ok (data ++ [("cloud", Value.vcloud pts)])

/-- The image branch of `__getitem__`: guarded by
`"image" in self.modalities and self.images_subdir is not None`; reads
the image at `track_dir / subdir / f"{row[f'{subdir}_ts']}.png"`,
converts BGR→RGB, applies the image transform.  A missing/undecodable
file makes `cv2.cvtColor` raise. -/
def imageStep (env : Env) (self : Dataset) (row : Row) (data : Sample) : Except Err Sample :=
  if "image" ∈ self.modalities then
    match self.images_subdir with
    | none => .ok data
    | some sub =>
        match env.imread (assetPath self.dataset_root row.track sub (row.tsOf (sub ++ "_ts") ++ ".png")) with
        | none => .error .resourceError
        | some im => .ok (data ++ [("image", Value.vimg (env.image_transform (env.cvtColor im)))])
  else .ok data

/-- The cloud branch of `__getitem__`: guarded by
`"cloud" in self.modalities and self.clouds_subdir is not None`. -/
def cloudStep (env : Env) (self : Dataset) (row : Row) (data : Sample) : Except Err Sample :=
  if "cloud" ∈ self.modalities then
    match cloudPath self row with
    | none => .ok data
    | some p => cloudRead env p data
  else .ok data

/-- Load one semantic mask: grayscale read, resize to 128×128, semantic
transform, cast to float.  A missing/undecodable file makes
`cv2.resize` raise. -/
def semanticRead (env : Env) (path : List String) : Except Err Img :=
  match env.imreadGray path with
  | none => .error .resourceError
  | some im => .ok (env.toFloat (env.semantic_transform (env.resize im 128 128)))

/-- The semantic branch of `__getitem__`: guarded by
`"semantic" in self.modalities and (front is not None or back is not
None)`; the front and back sub-channels are then handled independently
(a `Path` attribute is always truthy, so the inner `if`s reduce to the
attribute being set). -/
def semanticStep (env : Env) (self : Dataset) (row : Row) (data : Sample) : Except Err Sample :=
  if "semantic" ∈ self.modalities ∧
      (self.semantic_front_subdir ≠ none ∨ self.semantic_back_subdir ≠ none) then
    match
      (match self.semantic_front_subdir with
        | none => Except.ok data
        | some sub =>
            match semanticRead env (assetPath self.dataset_root row.track sub (row.tsOf "front_cam_ts" ++ ".png")) with
            | .error e => .error e
            | .ok im => .ok (data ++ [("semantic_front", Value.vimg im)])) with
    | .error e => .error e
    | .ok data1 =>
        match self.semantic_back_subdir with
        | none => .ok data1
        | some sub =>
            match semanticRead env (assetPath self.dataset_root row.track sub (row.tsOf "back_cam_ts" ++ ".png")) with
            | .error e => .error e
            | .ok im => .ok (data1 ++ [("semantic_back", Value.vimg im)])
  else .ok data

/-- Method `PhystechCampus.__getitem__`: build
`{"idx": idx, "utm": (northing, easting)}` from the row looked up with
`.iloc`, then run the image, cloud and semantic branches in order.  The
post-state of the object is returned alongside the sample; `__getitem__`
assigns no attribute, so the state it returns is the one it received. -/
def getitem (env : Env) (self : Dataset) (idx : Int) : Except Err (Sample × Dataset) :=
  match iloc self.dataset_df.rows idx with
  | none => .error .indexError
  | some row =>
      match imageStep env self row
          [("idx", Value.vint idx), ("utm", Value.vvec [row.northing, row.easting])] with
      | .error e => .error e
      | .ok data2 =>
          match cloudStep env self row data2 with
          | .error e => .error e
          | .ok data3 =>
              match semanticStep env self row data3 with
              | .error e => .error e
              | .ok data4 => .ok (data4, self)

/-- First-match key lookup in a sample (Python `dict` access). -/
def lookupKey (k : String) : Sample → Option Value
  | [] => none
  | (k0, v) :: rest => if k0 = k then some v else lookupKey k rest

/-- A concrete Row Index row used in witnesses. -/
def row0 : Row :=
  { track := "3", northing := 5, easting := 7,
    tsOf := fun c => if c = "lidar_ts" then "1000" else "42" }

/-- A concrete one-row Row Index table used in witnesses. -/
def table0 : Table := { rows := [row0], in_query := none }

/-- A concrete environment used in witnesses: every file exists, every
codec/transform is a fixed total function. -/
def env0 : Env :=
  { fs_bin := fun _ => some [1, 2, 3, 0], imread := fun _ => some ⟨0⟩,
    imreadGray := fun _ => some ⟨1⟩, cvtColor := id,
    resize := fun i _ _ => i, image_transform := id,
    semantic_transform := id, toFloat := id }

/-- Witness constructor arguments: `train` subset, no modalities. -/
def args6 : InitArgs := { dataset_root := ["data"], subset := "train", modalities := [] }

/-- The dataset state `init args6 table0` produces. -/
def ds6 : Dataset :=
  { dataset_root := ["data"], subset := "train", modalities := [],
    images_subdir := none, semantic_front_subdir := none,
    semantic_back_subdir := none, clouds_subdir := some "lidar",
    mink_quantization_size := some (1 / 2), dataset_df := table0 }

/-- The sample `getitem env0 ds6 0` produces. -/
def sample6 : Sample := [("idx", Value.vint 0), ("utm", Value.vvec [5, 7])]

/-- The sample `getitem env0 ds6 (-1)` produces. -/
def sampleNeg : Sample := [("idx", Value.vint (-1)), ("utm", Value.vvec [5, 7])]

/-- Constructor arguments with the `test` subset. -/
def argsTest : InitArgs := { dataset_root := ["data"], subset := "test", modalities := [] }

/-- The dataset state `init argsTest table0` produces: note the
`in_query` column written into the Row Index. -/
def dsTest : Dataset :=
  { dataset_root := ["data"], subset := "test", modalities := [],
    images_subdir := none, semantic_front_subdir := none,
    semantic_back_subdir := none, clouds_subdir := some "lidar",
    mink_quantization_size := some (1 / 2),
    dataset_df := { rows := [row0], in_query := some true } }

/-- Constructor arguments enabling only the cloud modality. -/
def argsC : InitArgs := { dataset_root := ["data"], subset := "train", modalities := ["cloud"] }

/-- The dataset state `init argsC table0` produces. -/
def dsC : Dataset :=
  { dataset_root := ["data"], subset := "train", modalities := ["cloud"],
    images_subdir := none, semantic_front_subdir := none,
    semantic_back_subdir := none, clouds_subdir := some "lidar",
    mink_quantization_size := some (1 / 2), dataset_df := table0 }

/-- Constructor arguments enabling the semantic modality with only the
front sub-channel configured. -/
def args5 : InitArgs :=
  { dataset_root := ["data"], subset := "train", modalities := ["semantic"],
    semantic_front_subdir := some "labels/front_cam", semantic_back_subdir := none }

/-- The dataset state `init args5 table0` produces. -/
def ds5 : Dataset :=
  { dataset_root := ["data"], subset := "train", modalities := ["semantic"],
    images_subdir := none, semantic_front_subdir := some "labels/front_cam",
    semantic_back_subdir := none, clouds_subdir := some "lidar",
    mink_quantization_size := some (1 / 2), dataset_df := table0 }

/-- The sample `getitem env0 ds5 0` produces. -/
def sample5 : Sample :=
  [("idx", Value.vint 0), ("utm", Value.vvec [5, 7]), ("semantic_front", Value.vimg ⟨1⟩)]

theorem chunk4_length :
    ∀ (l : List ℚ) (rs : List (ℚ × ℚ × ℚ × ℚ)), chunk4 l = some rs → l.length = 4 * rs.length
  | [], rs, h => by
      simp only [chunk4, Option.some.injEq] at h
      subst h; rfl
  | a :: b :: c :: d :: rest, rs, h => by
      simp only [chunk4, Option.map_eq_some'] at h
      obtain ⟨rs0, h1, h2⟩ := h
      subst h2
      have ih := chunk4_length rest rs0 h1
      simp [List.length_cons, ih]
      ring
  | [_], rs, h => by simp [chunk4] at h
  | [_, _], rs, h => by simp [chunk4] at h
  | [_, _, _], rs, h => by simp [chunk4] at h

theorem keepPoint_iff (p : Point3) :
    keepPoint p = true ↔
      ((-100 ≤ p.x ∧ p.x ≤ 100) ∧ (-100 ≤ p.y ∧ p.y ≤ 100) ∧ (-100 ≤ p.z ∧ p.z ≤ 100)) := by
  simp [keepPoint, inRange100, and_assoc]

theorem filter_map_eq_filterMap {α β : Type} (f : α → β) (p : β → Bool) (l : List α) :
    (l.map f).filter p = l.filterMap (fun r => if p (f r) then some (f r) else none) := by
  induction l with
  | nil => rfl
  | cons a t ih =>
      by_cases h : p (f a) = true
      · simp [List.filter_cons, List.filterMap_cons, h, ih]
      · simp [List.filter_cons, List.filterMap_cons, if_neg h, h, ih]

theorem filter_map_length {α β : Type} (f : α → β) (p : β → Bool) (l : List α) :
    ((l.map f).filter p).length = (l.filter (fun r => p (f r))).length := by
  induction l with
  | nil => rfl
  | cons a t ih =>
      by_cases h : p (f a) = true
      · simp [List.filter_cons, h, ih]
      · simp [List.filter_cons, h, ih]

/-- C1: For every cloud returned by `_load_pc`, every point has all
three coordinates in `[-100, 100]` (soundness); every 4-float record
whose first three values all lie in `[-100, 100]` contributes its
projection to the output (completeness); and the output has exactly as
many rows as there are in-range records, so an out-of-range record is
dropped entirely rather than clamped. -/
theorem load_pc_range_filter (floats : List ℚ) (rows : List (ℚ × ℚ × ℚ × ℚ))
    (h : chunk4 floats = some rows) :
    ∃ out, load_pc floats = some out ∧
      (∀ p ∈ out,
        (-100 ≤ p.x ∧ p.x ≤ 100) ∧ (-100 ≤ p.y ∧ p.y ≤ 100) ∧ (-100 ≤ p.z ∧ p.z ≤ 100)) ∧
      (∀ r ∈ rows,
        ((-100 ≤ r.1 ∧ r.1 ≤ 100) ∧ (-100 ≤ r.2.1 ∧ r.2.1 ≤ 100) ∧
          (-100 ≤ r.2.2.1 ∧ r.2.2.1 ≤ 100)) → proj3 r ∈ out) ∧
      out.length = (rows.filter (fun r => keepPoint (proj3 r))).length := by
  refine ⟨(rows.map proj3).filter keepPoint, by simp [load_pc, h], ?_, ?_, ?_⟩
  · intro p hp
    have hk : keepPoint p = true := List.of_mem_filter hp
    exact (keepPoint_iff p).mp hk
  · intro r hr hb
    have hk : keepPoint (proj3 r) = true := (keepPoint_iff (proj3 r)).mpr hb
    exact List.mem_filter.mpr ⟨List.mem_map_of_mem proj3 hr, hk⟩
  · exact filter_map_length proj3 keepPoint rows

/-- Witness for C1, at the spec's own example: 8 floats forming the
records `(1,2,3,0)` and `(200,0,0,0)`; the loaded cloud keeps exactly
the point `(1,2,3)`. -/
theorem load_pc_range_filter_witness :
    ∃ out, load_pc [1, 2, 3, 0, 200, 0, 0, 0] = some out ∧
      (∀ p ∈ out,
        (-100 ≤ p.x ∧ p.x ≤ 100) ∧ (-100 ≤ p.y ∧ p.y ≤ 100) ∧ (-100 ≤ p.z ∧ p.z ≤ 100)) ∧
      (∀ r ∈ [((1 : ℚ), (2 : ℚ), (3 : ℚ), (0 : ℚ)), (200, 0, 0, 0)],
        ((-100 ≤ r.1 ∧ r.1 ≤ 100) ∧ (-100 ≤ r.2.1 ∧ r.2.1 ≤ 100) ∧
          (-100 ≤ r.2.2.1 ∧ r.2.2.1 ≤ 100)) → proj3 r ∈ out) ∧
      out.length =
        ([((1 : ℚ), (2 : ℚ), (3 : ℚ), (0 : ℚ)), (200, 0, 0, 0)].filter
          (fun r => keepPoint (proj3 r))).length :=
  load_pc_range_filter [1, 2, 3, 0, 200, 0, 0, 0]
    [(1, 2, 3, 0), (200, 0, 0, 0)] (by decide)

/-- C8: `_load_pc` on an empty file (zero floats) returns a cloud with
zero rows and does not fail. -/
theorem load_pc_empty : load_pc ([] : List ℚ) = some [] := rfl

/-- C9: If the number of floats in the file is not a multiple of 4,
`_load_pc` fails (the reshape raises); it never truncates or pads. -/
theorem load_pc_not_multiple_of_four (floats : List ℚ)
    (h : floats.length % 4 ≠ 0) : load_pc floats = none := by
  cases hc : chunk4 floats with
  | none => simp [load_pc, hc]
  | some rs =>
      exact absurd (by simp [chunk4_length floats rs hc, Nat.mul_mod_right]) h

/-- Witness for C9: a file of 5 floats is rejected. -/
theorem load_pc_not_multiple_of_four_witness :
    ([(1 : ℚ), 2, 3, 4, 5].length % 4 ≠ 0) ∧ load_pc [1, 2, 3, 4, 5] = none :=
  ⟨by decide, load_pc_not_multiple_of_four [1, 2, 3, 4, 5] (by decide)⟩

/-- C10: `_load_pc` preserves order and multiplicity: its output is
exactly the records of the file that pass the range test, each projected
to its first three values, in file order (a `filterMap`), and the output
is a sublist of the projections of all records. -/
theorem load_pc_order_multiplicity (floats : List ℚ) (rows : List (ℚ × ℚ × ℚ × ℚ))
    (h : chunk4 floats = some rows) :
    load_pc floats =
      some (rows.filterMap (fun r => if keepPoint (proj3 r) then some (proj3 r) else none)) ∧
    ∀ out, load_pc floats = some out → out.Sublist (rows.map proj3) := by
  constructor
  · simp [load_pc, h, filter_map_eq_filterMap]
  · intro out hout
    simp only [load_pc, h, Option.map_some', Option.some.injEq] at hout
    subst hout
    exact List.filter_sublist (rows.map proj3)

/-- Witness for C10, on a file with a duplicate in-range record and an
out-of-range record between the copies. -/
theorem load_pc_order_multiplicity_witness :
    load_pc [1, 2, 3, 9, 101, 0, 0, 0, 1, 2, 3, 9] =
      some ([((1 : ℚ), (2 : ℚ), (3 : ℚ), (9 : ℚ)), (101, 0, 0, 0), (1, 2, 3, 9)].filterMap
        (fun r => if keepPoint (proj3 r) then some (proj3 r) else none)) ∧
    ∀ out, load_pc [1, 2, 3, 9, 101, 0, 0, 0, 1, 2, 3, 9] = some out →
      out.Sublist ([((1 : ℚ), (2 : ℚ), (3 : ℚ), (9 : ℚ)), (101, 0, 0, 0), (1, 2, 3, 9)].map proj3) :=
  load_pc_order_multiplicity [1, 2, 3, 9, 101, 0, 0, 0, 1, 2, 3, 9]
    [(1, 2, 3, 9), (101, 0, 0, 0), (1, 2, 3, 9)] (by decide)

@[simp]
theorem baseInit_df (args : InitArgs) (df : Table) : (baseInit args df).dataset_df = df := rfl

@[simp]
theorem withCloudsSubdir_df (self : Dataset) (v : Option String) :
    (withCloudsSubdir self v).dataset_df = self.dataset_df := rfl

@[simp]
theorem withImagesSubdir_df (self : Dataset) (v : Option String) :
    (withImagesSubdir self v).dataset_df = self.dataset_df := rfl

@[simp]
theorem withSemanticFront_df (self : Dataset) (v : Option String) :
    (withSemanticFront self v).dataset_df = self.dataset_df := rfl

@[simp]
theorem withSemanticBack_df (self : Dataset) (v : Option String) :
    (withSemanticBack self v).dataset_df = self.dataset_df := rfl

@[simp]
theorem withMink_df (self : Dataset) (v : Option ℚ) :
    (withMink self v).dataset_df = self.dataset_df := rfl

@[simp]
theorem withInQuery_df (self : Dataset) :
    (withInQuery self).dataset_df = { self.dataset_df with in_query := some true } := rfl

theorem init_ok_elim (args : InitArgs) (df : Table) (d : Dataset)
    (h : init args df = .ok d) :
    d.dataset_root = args.dataset_root ∧
    d.subset = args.subset ∧
    d.modalities = args.modalities ∧
    d.clouds_subdir = some "lidar" ∧
    d.semantic_front_subdir =
      (if "semantic" ∈ args.modalities ∧ truthy args.semantic_front_subdir = true then
        args.semantic_front_subdir else none) ∧
    d.semantic_back_subdir =
      (if "semantic" ∈ args.modalities ∧ truthy args.semantic_back_subdir = true then
        args.semantic_back_subdir else none) ∧
    d.dataset_df = (if args.subset = "test" then { df with in_query := some true } else df) := by
  by_cases hval : (args.subset ∈ valid_subsets ∧
      (args.modalities.all fun x => decide (x ∈ valid_modalities)) = true)
  · unfold init at h
    rw [if_pos hval] at h
    by_cases hc : "cloud" ∈ args.modalities <;>
    by_cases hi : "image" ∈ args.modalities <;>
    by_cases himg : truthy args.images_subdir = false <;>
    by_cases hs : "semantic" ∈ args.modalities <;>
    by_cases hf : truthy args.semantic_front_subdir = true <;>
    by_cases hb : truthy args.semantic_back_subdir = true <;>
    simp [hc, hi, himg, hs, hf, hb] at h <;>
    subst h <;>
    by_cases ht : args.subset = "test" <;>
    simp [hs, hf, hb, ht]
  · unfold init at h
    rw [if_neg hval] at h
    exact absurd h (by simp)

theorem lookupKey_append_left (k : String) (a b : Sample) (v : Value)
    (h : lookupKey k a = some v) : lookupKey k (a ++ b) = some v := by
  induction a with
  | nil => simp [lookupKey] at h
  | cons kv rest ih =>
      obtain ⟨k0, w⟩ := kv
      by_cases hk : k0 = k
      · simp only [List.cons_append, lookupKey, if_pos hk] at h ⊢
        exact h
      · simp only [List.cons_append, lookupKey, if_neg hk] at h ⊢
        exact ih h

theorem lookupKey_append_right (k : String) (a b : Sample)
    (h : lookupKey k a = none) : lookupKey k (a ++ b) = lookupKey k b := by
  induction a with
  | nil => rfl
  | cons kv rest ih =>
      obtain ⟨k0, w⟩ := kv
      by_cases hk : k0 = k
      · simp [lookupKey, hk] at h
      · simp only [List.cons_append, lookupKey, if_neg hk] at h ⊢
        exact ih h

theorem lookupKey_eq_none (k : String) (l : Sample)
    (h : ∀ kv ∈ l, kv.1 ≠ k) : lookupKey k l = none := by
  induction l with
  | nil => rfl
  | cons kv rest ih =>
      simp only [lookupKey]
      rw [if_neg (h kv (List.mem_cons_self kv rest))]
      exact ih (fun x hx => h x (List.mem_cons_of_mem kv hx))

theorem imageStep_keys (env : Env) (self : Dataset) (row : Row) (data s : Sample)
    (h : imageStep env self row data = .ok s) :
    ∃ t, s = data ++ t ∧ ∀ kv ∈ t, kv.1 = "image" := by
  unfold imageStep at h
  split at h
  · split at h
    · injection h with h
      exact ⟨[], h.symm ▸ by simp, by simp⟩
    · split at h
      · simp at h
      · injection h with h
        exact ⟨_, h.symm, by simp⟩
  · injection h with h
    exact ⟨[], h.symm ▸ by simp, by simp⟩

theorem cloudStep_keys (env : Env) (self : Dataset) (row : Row) (data s : Sample)
    (h : cloudStep env self row data = .ok s) :
    ∃ t, s = data ++ t ∧ ∀ kv ∈ t, kv.1 = "cloud" := by
  unfold cloudStep at h
  split at h
  · split at h
    · injection h with h
      exact ⟨[], h.symm ▸ by simp, by simp⟩
    · unfold cloudRead at h
      split at h
      · simp at h
      · split at h
        · simp at h
        · injection h with h
          exact ⟨_, h.symm, by simp⟩
  · injection h with h
    exact ⟨[], h.symm ▸ by simp, by simp⟩

theorem semanticStep_keys (env : Env) (self : Dataset) (row : Row) (data s : Sample)
    (h : semanticStep env self row data = .ok s) :
    ∃ t, s = data ++ t ∧ ∀ kv ∈ t, kv.1 = "semantic_front" ∨ kv.1 = "semantic_back" := by
  unfold semanticStep at h
  split at h
  · split at h
    · simp at h
    · rename_i data1 hfront
      split at h
      · split at hfront
        · injection hfront with hfront
          injection h with h
          subst hfront
          exact ⟨[], h.symm ▸ by simp, by simp⟩
        · split at hfront
          · simp at hfront
          · injection hfront with hfront
            injection h with h
            subst hfront
            exact ⟨_, h.symm, by simp⟩
      · split at h
        · simp at h
        · injection h with h
          split at hfront
          · injection hfront with hfront
            subst hfront
            exact ⟨_, h.symm, by simp⟩
          · split at hfront
            · simp at hfront
            · injection hfront with hfront
              subst hfront
              refine ⟨_, by rw [← h, List.append_assoc], ?_⟩
              simp
  · injection h with h
    exact ⟨[], h.symm ▸ by simp, by simp⟩

theorem semanticStep_front_some_back_none (env : Env) (self : Dataset) (row : Row)
    (data s : Sample) (f : String)
    (hm : "semantic" ∈ self.modalities)
    (hf : self.semantic_front_subdir = some f)
    (hb : self.semantic_back_subdir = none)
    (h : semanticStep env self row data = .ok s) :
    ∃ v, s = data ++ [("semantic_front", v)] := by
  unfold semanticStep at h
  rw [if_pos ⟨hm, Or.inl (by simp [hf])⟩] at h
  rw [hf, hb] at h
  cases hread : semanticRead env
      (assetPath self.dataset_root row.track f (row.tsOf "front_cam_ts" ++ ".png")) with
  | error e => simp [hread] at h
  | ok im =>
      simp [hread] at h
      exact ⟨Value.vimg im, h.symm⟩

theorem getitem_ok_decomp (env : Env) (self : Dataset) (idx : Int) (s : Sample)
    (d' : Dataset) (h : getitem env self idx = .ok (s, d')) :
    d' = self ∧ ∃ row data3 t2 t3,
      iloc self.dataset_df.rows idx = some row ∧
      data3 = [("idx", Value.vint idx), ("utm", Value.vvec [row.northing, row.easting])] ++ t2 ++ t3 ∧
      (∀ kv ∈ t2, kv.1 = "image") ∧ (∀ kv ∈ t3, kv.1 = "cloud") ∧
      semanticStep env self row data3 = .ok s := by
  unfold getitem at h
  split at h
  · simp at h
  · rename_i row hrow
    split at h
    · simp at h
    · rename_i data2 h2
      split at h
      · simp at h
      · rename_i data3 h3
        split at h
        · simp at h
        · rename_i data4 h4
          injection h with h
          injection h with hs hd
          subst hs
          subst hd
          obtain ⟨t2, h2eq, h2k⟩ := imageStep_keys env self row _ _ h2
          obtain ⟨t3, h3eq, h3k⟩ := cloudStep_keys env self row _ _ h3
          subst h2eq
          subst h3eq
          exact ⟨rfl, row, _, t2, t3, hrow, by simp, h2k, h3k, h4⟩

theorem lookupKey_assembled_none (k : String) (idx : Int) (u : List ℚ) (t2 t3 : Sample)
    (hk1 : k ≠ "idx") (hk2 : k ≠ "utm") (hki : k ≠ "image") (hkc : k ≠ "cloud")
    (ht2 : ∀ kv ∈ t2, kv.1 = "image") (ht3 : ∀ kv ∈ t3, kv.1 = "cloud") :
    lookupKey k ([("idx", Value.vint idx), ("utm", Value.vvec u)] ++ t2 ++ t3) = none := by
  apply lookupKey_eq_none
  intro kv hkv
  rcases List.mem_append.mp hkv with hkv | hkv
  · rcases List.mem_append.mp hkv with hkv | hkv
    · simp only [List.mem_cons, List.not_mem_nil, or_false] at hkv
      rcases hkv with h | h <;> subst h
      · exact fun hh => hk1 hh.symm
      · exact fun hh => hk2 hh.symm
    · have hh := ht2 kv hkv
      rw [hh]
      exact fun he => hki he.symm
  · have hh := ht3 kv hkv
    rw [hh]
    exact fun he => hkc he.symm

/-- C2 (amended): `__getitem__` writes nothing — the object state it
returns is the state it received, so the Row Index is untouched by every
`getSample` call; construction leaves the Row Index unchanged when the
subset is not `test`, while construction with the `test` subset writes
the `in_query` column (set to `True`) into the Row Index table, leaving
the rows themselves unchanged. -/
theorem row_index_effects (env : Env) (d : Dataset) (idx : Int) (s : Sample)
    (d' : Dataset) (args : InitArgs) (df : Table) (d0 : Dataset)
    (hget : getitem env d idx = .ok (s, d'))
    (hinit : init args df = .ok d0) :
    d' = d ∧ (args.subset ≠ "test" → d0.dataset_df = df) ∧
      (args.subset = "test" →
        d0.dataset_df.rows = df.rows ∧ d0.dataset_df.in_query = some true) := by
  obtain ⟨hframe, -⟩ := getitem_ok_decomp env d idx s d' hget
  obtain ⟨-, -, -, -, -, -, hdf⟩ := init_ok_elim args df d0 hinit
  refine ⟨hframe, ?_, ?_⟩
  · intro ht
    rw [hdf, if_neg ht]
  · intro ht
    rw [hdf, if_pos ht]
    exact ⟨rfl, rfl⟩

/-- Counterexample for C2 as stated: constructing with the default
`test` subset writes the `in_query` column into the Row Index table, so
the table after construction differs from the one handed in. -/
theorem init_test_writes_row_index :
    init argsTest table0 = .ok dsTest ∧ dsTest.dataset_df ≠ table0 := by
  refine ⟨rfl, fun hEq => ?_⟩
  have h := congrArg Table.in_query hEq
  simp [dsTest, table0] at h

/-- Witness for C2 (amended), at a concrete `train`-subset dataset and a
successful `getitem` call. -/
theorem row_index_effects_witness :
    ds6 = ds6 ∧ (args6.subset ≠ "test" → ds6.dataset_df = table0) ∧
      (args6.subset = "test" →
        ds6.dataset_df.rows = table0.rows ∧ ds6.dataset_df.in_query = some true) :=
  row_index_effects env0 ds6 0 sample6 ds6 args6 table0 ds6 rfl rfl

/-- C3: After construction the point-cloud subdirectory is the constant
`"lidar"` (the interim `"pcd"` assignment is dead), so for a dataset
with the cloud modality enabled the point-cloud asset path is
`root/track/lidar/{lidar timestamp}.bin` and the cloud branch reads
exactly that file. -/
theorem clouds_subdir_fixed (args : InitArgs) (df : Table) (d : Dataset) (env : Env)
    (row : Row) (data : Sample)
    (hinit : init args df = .ok d)
    (hm : "cloud" ∈ d.modalities) :
    d.clouds_subdir = some "lidar" ∧
    cloudPath d row =
      some (assetPath d.dataset_root row.track "lidar" (row.tsOf "lidar_ts" ++ ".bin")) ∧
    cloudStep env d row data =
      cloudRead env (assetPath d.dataset_root row.track "lidar" (row.tsOf "lidar_ts" ++ ".bin")) data := by
  obtain ⟨-, -, -, hcl, -⟩ := init_ok_elim args df d hinit
  have hpath : cloudPath d row =
      some (assetPath d.dataset_root row.track "lidar" (row.tsOf "lidar_ts" ++ ".bin")) := by
    simp [cloudPath, hcl]
  refine ⟨hcl, hpath, ?_⟩
  unfold cloudStep
  rw [if_pos hm, hpath]

/-- Witness for C3, at a concrete cloud-modality dataset. -/
theorem clouds_subdir_fixed_witness :
    dsC.clouds_subdir = some "lidar" ∧
    cloudPath dsC row0 =
      some (assetPath dsC.dataset_root row0.track "lidar" (row0.tsOf "lidar_ts" ++ ".bin")) ∧
    cloudStep env0 dsC row0 [] =
      cloudRead env0 (assetPath dsC.dataset_root row0.track "lidar" (row0.tsOf "lidar_ts" ++ ".bin")) [] :=
  clouds_subdir_fixed argsC table0 dsC env0 row0 [] rfl (by decide)

/-- C4 (amended): `getSample(index)` fails with the fatal indexing
error exactly for `index < -datasetLength` or `index ≥ datasetLength`;
a negative index with `-datasetLength ≤ index < 0` is resolved from the
end of the table (pandas `.iloc` semantics) and can return a sample. -/
theorem getitem_out_of_range (env : Env) (d : Dataset) (idx : Int)
    (h : idx < -((d.dataset_df.rows.length : Int)) ∨ (d.dataset_df.rows.length : Int) ≤ idx) :
    getitem env d idx = .error .indexError := by
  have hil : iloc d.dataset_df.rows idx = none := by
    unfold iloc
    rcases h with h | h
    · rw [if_neg (show ¬ (0 ≤ idx) by omega)]
      split
      · rw [if_neg (show ¬ (0 ≤ (d.dataset_df.rows.length : Int) + idx) by omega)]
      · rfl
    · rw [if_pos (show (0 : Int) ≤ idx by omega)]
      rw [dif_neg (show ¬ (idx.toNat < d.dataset_df.rows.length) by omega)]
  unfold getitem
  rw [hil]

/-- Counterexample for C4 as stated: on a one-row dataset, index `-1`
does not satisfy `0 ≤ index`, yet `getSample(-1)` returns a sample (the
last row) instead of failing. -/
theorem negative_index_returns_sample :
    init args6 table0 = .ok ds6 ∧
    getitem env0 ds6 (-1) = .ok (sampleNeg, ds6) ∧
    ¬ (0 ≤ (-1 : Int)) :=
  ⟨rfl, rfl, by decide⟩

/-- Witness for C4 (amended): index 5 on a one-row dataset fails with
the indexing error. -/
theorem getitem_out_of_range_witness :
    getitem env0 ds6 5 = .error .indexError :=
  getitem_out_of_range env0 ds6 5 (by decide)

/-- C5: If the semantic modality is enabled with the front sub-channel
configured (non-empty) and the back sub-channel given as null, every
sample `getSample` returns contains the key `semantic_front` and never
contains the key `semantic_back`. -/
theorem semantic_front_only (args : InitArgs) (df : Table) (d : Dataset) (env : Env)
    (idx : Int) (s : Sample) (d' : Dataset) (f : String)
    (hm : "semantic" ∈ args.modalities)
    (hfa : args.semantic_front_subdir = some f)
    (hft : truthy args.semantic_front_subdir = true)
    (hba : args.semantic_back_subdir = none)
    (hinit : init args df = .ok d)
    (hget : getitem env d idx = .ok (s, d')) :
    (lookupKey "semantic_front" s).isSome = true ∧ lookupKey "semantic_back" s = none := by
  obtain ⟨-, -, hmod, -, hsf, hsb, -⟩ := init_ok_elim args df d hinit
  have hdf2 : d.semantic_front_subdir = some f := by
    rw [hsf, if_pos ⟨hm, hft⟩, hfa]
  have hdb2 : d.semantic_back_subdir = none := by
    rw [hsb, hba]
    simp [truthy]
  have hmd : "semantic" ∈ d.modalities := hmod ▸ hm
  obtain ⟨-, row, data3, t2, t3, -, hdata3, ht2, ht3, hsem⟩ :=
    getitem_ok_decomp env d idx s d' hget
  obtain ⟨v, hsv⟩ := semanticStep_front_some_back_none env d row data3 s f hmd hdf2 hdb2 hsem
  subst hdata3
  subst hsv
  have hnone1 := lookupKey_assembled_none "semantic_front" idx
    [row.northing, row.easting] t2 t3 (by decide) (by decide) (by decide) (by decide) ht2 ht3
  have hnone2 := lookupKey_assembled_none "semantic_back" idx
    [row.northing, row.easting] t2 t3 (by decide) (by decide) (by decide) (by decide) ht2 ht3
  constructor
  · rw [lookupKey_append_right _ _ _ hnone1]
    rfl
  · rw [lookupKey_append_right _ _ _ hnone2]
    rfl

/-- Witness for C5, at a concrete semantic-only dataset with the back
sub-channel null. -/
theorem semantic_front_only_witness :
    (lookupKey "semantic_front" sample5).isSome = true ∧
    lookupKey "semantic_back" sample5 = none :=
  semantic_front_only args5 table0 ds5 env0 0 sample5 ds5 "labels/front_cam"
    (by decide) rfl rfl rfl rfl rfl

/-- C6: For every valid index `0 ≤ i < datasetLength`, the sample
returned by `getSample(i)` contains the key `idx` with value `i`. -/
theorem getitem_idx_eq (env : Env) (d : Dataset) (i : Int) (s : Sample) (d' : Dataset)
    (h0 : 0 ≤ i) (h1 : i < (d.dataset_df.rows.length : Int))
    (hget : getitem env d i = .ok (s, d')) :
    lookupKey "idx" s = some (Value.vint i) := by
  obtain ⟨-, row, data3, t2, t3, -, hdata3, ht2, ht3, hsem⟩ :=
    getitem_ok_decomp env d i s d' hget
  obtain ⟨t4, hseq, ht4⟩ := semanticStep_keys env d row data3 s hsem
  subst hdata3
  subst hseq
  apply lookupKey_append_left
  apply lookupKey_append_left
  apply lookupKey_append_left
  rfl

/-- Witness for C6 at index 0 of a one-row dataset. -/
theorem getitem_idx_eq_witness :
    lookupKey "idx" sample6 = some (Value.vint 0) :=
  getitem_idx_eq env0 ds6 0 sample6 ds6 (by decide) (by decide) rfl

/-- C7: For every returned sample, the `utm` value is a vector of
exactly 2 elements, the row's northing and easting in that order (the
stored float32 values copied verbatim). -/
theorem getitem_utm_eq (env : Env) (d : Dataset) (i : Int) (s : Sample) (d' : Dataset)
    (row : Row)
    (hrow : iloc d.dataset_df.rows i = some row)
    (hget : getitem env d i = .ok (s, d')) :
    ∃ v, lookupKey "utm" s = some (Value.vvec v) ∧ v.length = 2 ∧
      v = [row.northing, row.easting] := by
  obtain ⟨-, row2, data3, t2, t3, hrow2, hdata3, ht2, ht3, hsem⟩ :=
    getitem_ok_decomp env d i s d' hget
  rw [hrow] at hrow2
  injection hrow2 with hr
  subst hr
  obtain ⟨t4, hseq, ht4⟩ := semanticStep_keys env d row data3 s hsem
  subst hdata3
  subst hseq
  refine ⟨[row.northing, row.easting], ?_, rfl, rfl⟩
  apply lookupKey_append_left
  apply lookupKey_append_left
  apply lookupKey_append_left
  rfl

/-- Witness for C7 at index 0 of a one-row dataset. -/
theorem getitem_utm_eq_witness :
    ∃ v, lookupKey "utm" sample6 = some (Value.vvec v) ∧ v.length = 2 ∧
      v = [row0.northing, row0.easting] :=
  getitem_utm_eq env0 ds6 0 sample6 ds6 row0 rfl rfl

end PhystechCampus
